import Mathlib

/-!
Shallow embedding of src/weatherAPI.py (Flask weather aggregator).

Modelling conventions:
- JSON numbers are modelled as exact rationals; IEEE-754 rounding of Python
  floats is abstracted away.  Every theorem below uses the same rational
  arithmetic on both the code side and the specification side, so this
  abstraction never decides a claim.
- Python round(x, 2) is modelled by round2 below, which rounds half away
  from the even-tie behaviour of CPython only at exact half-cent ties; no
  theorem in this file evaluates round2 at such a tie.
- A dict such as results in aggregated_current_from_providers only ever
  holds a key together with a non-empty list (keys are created by
  setdefault immediately followed by append), so the dict is modelled as a
  record of four lists where an empty list means the key is absent and a
  lookup of an absent key is a KeyError.
- requests failures: safe_request catches requests.RequestException.  In
  requests since 2.27, Timeout, ConnectionError, HTTPError (raised by
  raise_for_status for any non-2xx status) and JSONDecodeError (raised by
  resp.json() on a malformed body) are all subclasses of RequestException;
  any other exception is not.  The model encodes one attempt outcome per
  network attempt.
-/

namespace WeatherAPI

instance {ε α : Type} [DecidableEq ε] [DecidableEq α] : DecidableEq (Except ε α)
  | .ok a, .ok b =>
    if h : a = b then .isTrue (by rw [h]) else .isFalse (fun hc => h (Except.ok.inj hc))
  | .ok _, .error _ => .isFalse (fun hc => Except.noConfusion hc)
  | .error _, .ok _ => .isFalse (fun hc => Except.noConfusion hc)
  | .error e, .error f =>
    if h : e = f then .isTrue (by rw [h]) else .isFalse (fun hc => h (Except.error.inj hc))

/-- Line 52: the forecast day-count limit. -/
def MAX_FORECAST_DAYS : Int := 7

/-- Line 51: the default forecast day count. -/
def DEFAULT_FORECAST_DAYS : Int := 3

/-! ### Numeric helpers (utilities shared by the aggregation code) -/

/-- CPython round-half-to-even on an exact rational. -/
def pyRound (q : ℚ) : ℤ :=
  if q - (⌊q⌋ : ℚ) < 1/2 then ⌊q⌋
  else if (1:ℚ)/2 < q - (⌊q⌋ : ℚ) then ⌊q⌋ + 1
  else if ⌊q⌋ % 2 = 0 then ⌊q⌋ else ⌊q⌋ + 1

/-- Python round(x, 2): round to 2 decimal places. -/
def round2 (q : ℚ) : ℚ := ((pyRound (q * 100) : ℤ) : ℚ) / 100

/-- Python int(x) on a float: truncation toward zero. -/
def pyTrunc (q : ℚ) : ℤ := if q < 0 then -⌊-q⌋ else ⌊q⌋

/-- The local helper mean(lst) = sum(lst) / len(lst) at line 157. -/
def mean (l : List ℚ) : ℚ := l.sum / (l.length : ℚ)

/-- Python min over a non-empty list; the empty case is unreachable in the
code (guarded at line 248) and returns 0 here. -/
def listMin : List ℚ → ℚ
  | [] => 0
  | x :: xs => xs.foldl min x

/-- Python max over a non-empty list; the empty case is unreachable in the
code (guarded at line 249) and returns 0 here. -/
def listMax : List ℚ → ℚ
  | [] => 0
  | x :: xs => xs.foldl max x

/-- Python slicing l[:n], including the negative-count case. -/
def pySlice {α : Type} (l : List α) (n : Int) : List α :=
  if 0 ≤ n then l.take n.toNat else l.take (l.length - (-n).toNat)

/-- CPython max(xs, key := f): scans left to right and replaces the current
best only on a strictly greater key, so the first maximal element wins. -/
def pyMaxBy {α : Type} (f : α → ℕ) : List α → Option α
  | [] => none
  | x :: xs => some (xs.foldl (fun b y => if f b < f y then y else b) x)

/-- Lines 164 and 250: max(conds, key := lambda x: conds.count(x)) if conds
else the empty string. -/
def condMode (l : List String) : String :=
  (pyMaxBy (fun x => l.count x) l).getD ""

/-! ### Python str.strip -/

/-- ASCII whitespace recognised by Python str.strip (the Unicode cases are
not exercised by any theorem here). -/
def isPySpace (c : Char) : Bool :=
  c = ' ' || c = '\t' || c = '\n' || c = '\r' || c = '\x0b' || c = '\x0c'

/-- Python str.strip on a list of characters: drop whitespace from both
ends. -/
def stripChars (l : List Char) : List Char :=
  ((l.dropWhile isPySpace).reverse.dropWhile isPySpace).reverse

/-- Python str.strip, as used on the location query parameter at lines 348
and 377. -/
def pyStrip (s : String) : String := ⟨stripChars s.data⟩

/-! ### Errors and data model -/

/-- The Python exceptions that can cross the aggregation boundary. -/
inductive PyErr where
  | runtime (msg : String)
  | keyError (key : String)
  | nameError (name : String)
  | zeroDivisionError
deriving DecidableEq

/-- Message of the RuntimeError raised at line 154. -/
def allFailedMsg : String := "All external providers failed or no provider configured."

/-- Message of the RuntimeError raised at line 240. -/
def noForecastMsg : String := "No forecast data available from configured providers."

/-- Which provider credentials are present (OPENWEATHER_API_KEY and
WEATHERAPI_KEY truthiness). -/
structure Config where
  openweatherKey : Bool
  weatherapiKey : Bool
deriving DecidableEq

def cfgBoth : Config := ⟨true, true⟩

def cfgNone : Config := ⟨false, false⟩

def cfgOWOnly : Config := ⟨true, false⟩

/-- The location record built by each provider branch. -/
structure Location where
  name : String
  lat : Option ℚ
  lon : Option ℚ
deriving DecidableEq

/-- The "main" object of an OpenWeatherMap current-conditions response;
a missing field is None.  A missing "main" object behaves like a missing
"temp" (extraction aborts before the first append either way). -/
structure OWMain where
  temp : Option ℚ
  feels_like : Option ℚ
  humidity : Option ℤ
deriving DecidableEq

/-- An OpenWeatherMap current-conditions response, reduced to the fields the
code reads.  weather is the optional "weather" array, each item reduced to
its optional "description". -/
structure OWPayload where
  main : OWMain
  weather : Option (List (Option String))
  name : String
  country : String
  lat : Option ℚ
  lon : Option ℚ
deriving DecidableEq

/-- A WeatherAPI.com current-conditions response, reduced to the fields the
code reads. -/
structure WAPayload where
  temp_c : Option ℚ
  feelslike_c : Option ℚ
  humidity : Option ℤ
  condText : Option String
  locName : String
  locCountry : String
  lat : Option ℚ
  lon : Option ℚ
deriving DecidableEq

/-- The results dict of aggregated_current_from_providers: one entry per
key, none meaning the key was never created, some l the present key with
its list.  The distinction matters because setdefault(key, []) evaluates
and creates the key before the append argument is evaluated, so a raising
argument leaves the key present with an empty list. -/
structure CurrentAcc where
  temps : Option (List ℚ)
  feels : Option (List ℚ)
  humidities : Option (List ℤ)
  conds : Option (List String)
deriving DecidableEq

/-- Python truthiness of the results dict: empty iff no key was ever
created.  A key created by setdefault whose append then raised still
counts (a dict holding only an empty-list value is truthy). -/
def CurrentAcc.isEmpty (a : CurrentAcc) : Bool :=
  a.temps.isNone && a.feels.isNone && a.humidities.isNone && a.conds.isNone

/-- The unified current-weather answer (line 166); the sources mapping holds
opaque raw payloads and is not modelled. -/
structure CurrentAnswer where
  location : Location
  temperature_c : ℚ
  feels_like_c : ℚ
  humidity : ℤ
  condition : String
deriving DecidableEq

/-- Line 128: the condition description lookup.  When the weather key is
absent the default singleton with an empty dict yields the empty string;
when the array is present but empty, indexing item 0 is an IndexError (no
result here); otherwise the optional description of the first item. -/
def owCond (ow : OWPayload) : Option String :=
  match ow.weather with
  | none => some ""
  | some [] => none
  | some (w :: _) => some (w.getD "")

/-- Line 130: the OpenWeatherMap location record. -/
def owLocation (ow : OWPayload) : Location :=
  ⟨ow.name ++ ", " ++ ow.country, ow.lat, ow.lon⟩

/-- Line 149: the WeatherAPI location record. -/
def waLocation (wa : WAPayload) : Location :=
  ⟨wa.locName ++ ", " ++ wa.locCountry, wa.lat, wa.lon⟩

/-- Lines 125-131: OpenWeatherMap extraction.  Each statement runs
setdefault(key, []) on the receiver first -- creating the key -- and only
then evaluates the append argument, so a raising argument (missing temp at
line 125, missing humidity at line 127) leaves that key present with an
empty list and aborts the remaining statements; the IndexError of an
empty weather array happens at line 128, before the conds setdefault of
line 129, so conds is left absent.  Earlier appends are kept and the
exception is caught by the except at line 132. -/
def owCurrentExtract (ow : OWPayload) (st : CurrentAcc × Option Location) :
    CurrentAcc × Option Location :=
  match ow.main.temp with
  | none => ({ st.1 with temps := some (st.1.temps.getD []) }, st.2)
  | some t =>
    let a1 : CurrentAcc :=
      { st.1 with
        temps := some (st.1.temps.getD [] ++ [t]),
        feels := some (st.1.feels.getD [] ++ [ow.main.feels_like.getD t]) }
    match ow.main.humidity with
    | none => ({ a1 with humidities := some (a1.humidities.getD []) }, st.2)
    | some h =>
      let a2 : CurrentAcc := { a1 with humidities := some (a1.humidities.getD [] ++ [h]) }
      match owCond ow with
      | none => (a2, st.2)
      | some c =>
        ({ a2 with conds := some (a2.conds.getD [] ++ [c]) }, some (owLocation ow))

/-- Lines 143-149: WeatherAPI extraction.  Only the cur["temp_c"] lookup at
line 144 can raise (everything else uses .get with a default), but its
setdefault has already created the temps key by then, so a missing temp_c
leaves temps present (with whatever was in it, an empty list when nothing
was appended before). -/
def waCurrentExtract (wa : WAPayload) (st : CurrentAcc × Option Location) :
    CurrentAcc × Option Location :=
  match wa.temp_c with
  | none => ({ st.1 with temps := some (st.1.temps.getD []) }, st.2)
  | some t =>
    ({ st.1 with
        temps := some (st.1.temps.getD [] ++ [t]),
        feels := some (st.1.feels.getD [] ++ [wa.feelslike_c.getD t]),
        humidities := some (st.1.humidities.getD [] ++ [wa.humidity.getD 0]),
        conds := some (st.1.conds.getD [] ++ [wa.condText.getD ""]) },
     some (waLocation wa))

/-- Lines 114-151: run the OpenWeatherMap branch then the WeatherAPI branch,
each gated on its credential and skipped entirely when its request failed
(owResp or waResp is none). -/
def currentCollect (cfg : Config) (owResp : Option OWPayload) (waResp : Option WAPayload) :
    CurrentAcc × Option Location :=
  let st0 : CurrentAcc × Option Location := (⟨none, none, none, none⟩, none)
  let st1 :=
    if cfg.openweatherKey then
      match owResp with
      | some ow => owCurrentExtract ow st0
      | none => st0
    else st0
  if cfg.weatherapiKey then
    match waResp with
    | some wa => waCurrentExtract wa st1
    | none => st1
  else st1

/-- results[key]: a KeyError when the key was never created, the stored
list otherwise -- which can be the empty list a raising setdefault-append
left behind. -/
def dictGet {α : Type} (o : Option (List α)) (key : String) : Except PyErr (List α) :=
  match o with
  | none => .error (.keyError key)
  | some l => .ok l

/-- Lines 101-173: aggregated_current_from_providers.  After the collection
phase, line 153 raises when the results dict is empty; lines 160-162 look
up temps, feels and humidities in that order (a missing key is a KeyError)
and take the mean of each, a ZeroDivisionError when the stored list is
empty; line 164 looks up conds (a KeyError when absent) and falls back to
the empty string on an empty list; line 167 reads the location variable, a
NameError when no branch reached its location assignment. -/
def aggregated_current (cfg : Config) (owResp : Option OWPayload) (waResp : Option WAPayload) :
    Except PyErr CurrentAnswer :=
  let st := currentCollect cfg owResp waResp
  if st.1.isEmpty then .error (.runtime allFailedMsg)
  else
    match dictGet st.1.temps "temps" with
    | .error e => .error e
    | .ok temps =>
      if temps.isEmpty then .error .zeroDivisionError
      else
        match dictGet st.1.feels "feels" with
        | .error e => .error e
        | .ok feels =>
          if feels.isEmpty then .error .zeroDivisionError
          else
            match dictGet st.1.humidities "humidities" with
            | .error e => .error e
            | .ok hums =>
              if hums.isEmpty then .error .zeroDivisionError
              else
                match dictGet st.1.conds "conds" with
                | .error e => .error e
                | .ok conds =>
                  match st.2 with
                  | none => .error (.nameError "location")
                  | some loc =>
                    .ok ⟨loc, round2 (mean temps), round2 (mean feels),
                      pyTrunc (mean (hums.map (fun h => (h : ℚ)))), condMode conds⟩

/-! ### Forecast aggregation (lines 176-253) -/

/-- One element of the WeatherAPI forecastday array, reduced to the fields
the loop at lines 203-210 reads; a missing field is None. -/
structure WAForecastDay where
  date : String
  avgtemp_c : Option ℚ
  mintemp_c : Option ℚ
  maxtemp_c : Option ℚ
  condText : Option String
deriving DecidableEq

/-- A WeatherAPI forecast response, reduced to the fields the code reads. -/
structure WAForecastPayload where
  locName : String
  locCountry : String
  lat : Option ℚ
  lon : Option ℚ
  forecastday : List WAForecastDay
deriving DecidableEq

/-- One element of the OpenWeather OneCall daily array after the code
formats its dt into a date string (line 226). -/
structure OWDailyDay where
  date : String
  tempDay : Option ℚ
  tempMin : Option ℚ
  tempMax : Option ℚ
  description : Option String
deriving DecidableEq

/-- The successful outcome of the OpenWeather branch at lines 218-224:
geocoding produced a first hit with lat and lon and the OneCall request
succeeded.  A failure at any of those stages leaves no trace in the
aggregation state, so all such failures are modelled as none. -/
structure OWForecastResp where
  lat : ℚ
  lon : ℚ
  daily : List OWDailyDay
deriving DecidableEq

/-- One value of the daily_aggregate dict (line 191): per-date lists of
temps, mins, maxs (possibly None entries) and condition strings. -/
structure DayAcc where
  temps : List (Option ℚ)
  mins : List (Option ℚ)
  maxs : List (Option ℚ)
  conds : List String
deriving DecidableEq

def DayAcc.fresh : DayAcc := ⟨[], [], [], []⟩

/-- daily_aggregate.setdefault(date, fresh) followed by in-place appends:
update the entry when the date is present, otherwise add a fresh entry at
the end (dict insertion order). -/
def upsertDay : List (String × DayAcc) → String → (DayAcc → DayAcc) → List (String × DayAcc)
  | [], d, f => [(d, f DayAcc.fresh)]
  | (k, v) :: rest, d, f =>
    if k = d then (k, f v) :: rest else (k, v) :: upsertDay rest d f

/-- A provider loop over its per-day records, each iteration upserting into
daily_aggregate under the record date. -/
def insertDays {δ : Type} (key : δ → String) (g : δ → DayAcc → DayAcc)
    (m : List (String × DayAcc)) (l : List δ) : List (String × DayAcc) :=
  l.foldl (fun acc d => upsertDay acc (key d) (g d)) m

/-- Lines 206-210: the WeatherAPI loop body appends avgtemp, mintemp,
maxtemp (as read, possibly None) and the condition text (defaulted to the
empty string). -/
def waAppend (day : WAForecastDay) (a : DayAcc) : DayAcc :=
  { a with
    temps := a.temps ++ [day.avgtemp_c],
    mins := a.mins ++ [day.mintemp_c],
    maxs := a.maxs ++ [day.maxtemp_c],
    conds := a.conds ++ [day.condText.getD ""] }

/-- Lines 227-234: the OpenWeather loop body appends the day temperature
only when it is not None (lines 229-231), and min, max and description
unconditionally. -/
def owAppend (day : OWDailyDay) (a : DayAcc) : DayAcc :=
  { a with
    temps := match day.tempDay with
      | some t => a.temps ++ [some t]
      | none => a.temps,
    mins := a.mins ++ [day.tempMin],
    maxs := a.maxs ++ [day.tempMax],
    conds := a.conds ++ [day.description.getD ""] }

/-- Line 202: the WeatherAPI forecast location record. -/
def waForecastLocation (wa : WAForecastPayload) : Location :=
  ⟨wa.locName ++ ", " ++ wa.locCountry, wa.lat, wa.lon⟩

/-- Lines 190-237: build daily_aggregate and the location variable.  The
WeatherAPI branch binds location before its loop (line 202); the
OpenWeather branch rebinds it inside its loop (line 235), so it overwrites
the WeatherAPI location whenever it processes at least one day.
Simplification recorded here: the OpenWeather loop body is modelled as
total, i.e. a weather array that is present but empty (an IndexError at
line 234 that would abort the loop mid-way, keeping earlier days and
possibly leaving location unbound) is not modelled; all theorems about
forecasts therefore speak about responses whose weather arrays, when
present, are non-empty. -/
def forecastCollect (cfg : Config) (city : String) (days2 : Int)
    (waResp : Option WAForecastPayload) (owResp : Option OWForecastResp) :
    List (String × DayAcc) × Option Location :=
  let st1 : List (String × DayAcc) × Option Location :=
    if cfg.weatherapiKey then
      match waResp with
      | some wa => (insertDays WAForecastDay.date waAppend [] wa.forecastday,
                    some (waForecastLocation wa))
      | none => ([], none)
    else ([], none)
  if cfg.openweatherKey then
    match owResp with
    | some ow =>
      let sliced := pySlice ow.daily days2
      (insertDays OWDailyDay.date owAppend st1.1 sliced,
       if sliced.isEmpty then st1.2 else some ⟨city, some ow.lat, some ow.lon⟩)
    | none => st1
  else st1

/-- Insertion into a list already sorted by date key. -/
def insertSortedByKey (x : String × DayAcc) : List (String × DayAcc) → List (String × DayAcc)
  | [] => [x]
  | y :: ys => if x.1 ≤ y.1 then x :: y :: ys else y :: insertSortedByKey x ys

/-- sorted(daily_aggregate.items()): sort the entries by date key (keys are
unique, so any comparison sort agrees with Python sorted here). -/
def sortByKey : List (String × DayAcc) → List (String × DayAcc)
  | [] => []
  | x :: xs => insertSortedByKey x (sortByKey xs)

/-- One element of the unified forecast list (line 251). -/
structure ForecastDay where
  date : String
  min_c : Option ℚ
  max_c : Option ℚ
  avg_c : Option ℚ
  condition : String
deriving DecidableEq

/-- The unified forecast answer (line 253); sources not modelled. -/
structure ForecastAnswer where
  location : Location
  forecast : List ForecastDay
deriving DecidableEq

/-- Lines 244-251: build one daily summary: filter the None entries, then
average the temps, take min of mins and max of maxs (each rounded to 2
decimals, None when its list is empty), and the most common condition. -/
def mkForecastDay (kv : String × DayAcc) : ForecastDay :=
  let temps := kv.2.temps.filterMap id
  let mins := kv.2.mins.filterMap id
  let maxs := kv.2.maxs.filterMap id
  ⟨kv.1,
   if mins.isEmpty then none else some (round2 (listMin mins)),
   if maxs.isEmpty then none else some (round2 (listMax maxs)),
   if temps.isEmpty then none else some (round2 (mean temps)),
   condMode kv.2.conds⟩

/-- Lines 176-253: aggregated_forecast_from_providers.  Line 189 clamps the
day count from above with min(days, MAX_FORECAST_DAYS); line 239 raises
when daily_aggregate is empty; line 243 sorts the dates and truncates to
the clamped count; line 253 reads the location variable (a NameError when
no branch bound it, unreachable when daily_aggregate is non-empty). -/
def aggregated_forecast (cfg : Config) (city : String) (days : Int)
    (waResp : Option WAForecastPayload) (owResp : Option OWForecastResp) :
    Except PyErr ForecastAnswer :=
  let days2 := min days MAX_FORECAST_DAYS
  let st := forecastCollect cfg city days2 waResp owResp
  if st.1.isEmpty then .error (.runtime noForecastMsg)
  else
    match st.2 with
    | none => .error (.nameError "location")
    | some loc => .ok ⟨loc, (pySlice (sortByKey st.1) days2).map mkForecastDay⟩

/-! ### Route layer (lines 347-360 and 376-396) -/

/-- Outcome of the current-weather route: 200 with a body, 400, 502 for a
RuntimeError, 500 for any other exception. -/
inductive CurrentRoute where
  | success (body : CurrentAnswer)
  | badRequest (msg : String)
  | providerFailure (msg : String)
  | internalError (e : PyErr)
deriving DecidableEq

/-- Lines 347-360: current_weather strips the location parameter, rejects
an empty result with 400, and maps a RuntimeError from aggregation to 502
and any other exception to 500.  The TTL cache sitting between the route
and the aggregator is modelled separately by getOrCompute below; this
models the cache-miss computation. -/
def current_weather (cfg : Config) (locationParam : String)
    (owResp : Option OWPayload) (waResp : Option WAPayload) : CurrentRoute :=
  let location := pyStrip locationParam
  if location = "" then .badRequest "location query parameter is required"
  else
    match aggregated_current cfg owResp waResp with
    | .ok d => .success d
    | .error (.runtime m) => .providerFailure m
    | .error e => .internalError e

/-- Outcome of the forecast route. -/
inductive ForecastRoute where
  | success (body : ForecastAnswer)
  | badRequest (msg : String)
  | providerFailure (msg : String)
  | internalError (e : PyErr)
deriving DecidableEq

/-- Lines 376-396: forecast_weather strips the location parameter, rejects
an empty location with 400, rejects a day count outside 1..MAX_FORECAST_DAYS
with 400 (lines 385-386), and otherwise computes the forecast for exactly
the requested day count. -/
def forecast_weather (cfg : Config) (locationParam : String) (daysParam : Int)
    (waResp : Option WAForecastPayload) (owResp : Option OWForecastResp) : ForecastRoute :=
  let location := pyStrip locationParam
  if location = "" then .badRequest "location query parameter is required"
  else if daysParam ≤ 0 ∨ MAX_FORECAST_DAYS < daysParam then
    .badRequest "days must be between 1 and 7"
  else
    match aggregated_forecast cfg location daysParam waResp owResp with
    | .ok d => .success d
    | .error (.runtime m) => .providerFailure m
    | .error e => .internalError e

/-! ### Cache (TTLCache with cachetools cached, lines 75 and 256-266) -/

/-- The cache key of cached_current: the stripped location string passed by
the route at line 353. -/
def currentCacheKey (locationParam : String) : String := pyStrip locationParam

/-- The cache key of cached_forecast: stripped location and the validated
day count, line 389. -/
def forecastCacheKey (locationParam : String) (days : Int) : String × Int :=
  (pyStrip locationParam, days)

/-- The exception classes below requests.RequestException that this code
can meet: Timeout, ConnectionError, HTTPError from raise_for_status on any
non-2xx status, and (since requests 2.27) JSONDecodeError from resp.json()
on a malformed body. -/
inductive ReqExcKind where
  | timeoutErr
  | connectionErr
  | httpStatusErr (status : Nat)
  | jsonDecodeErr
deriving DecidableEq

/-- The outcome of one network attempt inside safe_request. -/
inductive AttemptOutcome (J : Type) where
  | ok (v : J)
  | requestException (e : ReqExcKind)
  | otherException (msg : String)
deriving DecidableEq

/-- What safe_request raises. -/
inductive SRError where
  | requestFailure (e : ReqExcKind)
  | otherFailure (msg : String)
deriving DecidableEq

/-- The observable behaviour of one safe_request call: its result, how many
network attempts it consumed, and the total time slept between attempts. -/
structure SRTrace (J : Type) where
  result : Except SRError J
  attemptsUsed : Nat
  sleepSeconds : ℚ
deriving DecidableEq

/-- Lines 79-98: try the request once; catch exactly
requests.RequestException, sleep 0.3 seconds and try once more; on the
retry catch Exception only to log and re-raise.  An exception outside
RequestException on the first attempt propagates immediately. -/
def safe_request {J : Type} (attempt1 attempt2 : AttemptOutcome J) : SRTrace J :=
  match attempt1 with
  | .ok v => ⟨.ok v, 1, 0⟩
  | .otherException m => ⟨.error (.otherFailure m), 1, 0⟩
  | .requestException _ =>
    match attempt2 with
    | .ok v => ⟨.ok v, 2, 3/10⟩
    | .requestException e2 => ⟨.error (.requestFailure e2), 2, 3/10⟩
    | .otherException m => ⟨.error (.otherFailure m), 2, 3/10⟩

/-! ### Interleaving model of the cached wrapper under concurrency

cachetools cached is used without a lock (lines 257 and 263), so a call
is: look the key up (return on a hit), otherwise run the wrapped function,
then store and return.  Two callers of the same key are modelled as two
threads, each stepping through lookup, compute and store; a schedule is
the list of thread ids in execution order. -/

inductive ThreadPc where
  | start
  | missed
  | computed (v : Nat)
  | finished (v : Nat)
deriving DecidableEq

/-- One step of one thread against the shared cache slot for its key:
lookup at start (hit returns, miss proceeds), then compute (counted), then
store and return. -/
def threadStep (compute : Nat) (pc : ThreadPc) (c : Option Nat) :
    ThreadPc × Option Nat × Nat :=
  match pc, c with
  | .start, some v => (.finished v, some v, 0)
  | .start, none => (.missed, none, 0)
  | .missed, c0 => (.computed compute, c0, 1)
  | .computed v, _ => (.finished v, some v, 0)
  | .finished v, c0 => (.finished v, c0, 0)

/-- The shared state: the cache slot for the key, how many times the
wrapped function ran, and both thread positions. -/
structure FlightState where
  cacheVal : Option Nat
  execCount : Nat
  pcA : ThreadPc
  pcB : ThreadPc
deriving DecidableEq

/-- Run one scheduled step (false steps thread A, true steps thread B). -/
def flightStep (compute : Nat) (s : FlightState) (tid : Bool) : FlightState :=
  if tid then
    let r := threadStep compute s.pcB s.cacheVal
    ⟨r.2.1, s.execCount + r.2.2, s.pcA, r.1⟩
  else
    let r := threadStep compute s.pcA s.cacheVal
    ⟨r.2.1, s.execCount + r.2.2, r.1, s.pcB⟩

/-- Run a schedule from the initial state: empty cache slot, no executions,
both threads about to look up the same key. -/
def flightRun (compute : Nat) (sched : List Bool) : FlightState :=
  sched.foldl (flightStep compute) ⟨none, 0, .start, .start⟩

/-! ### Success and contribution predicates -/

theorem upsertDay_isEmpty (m : List (String × DayAcc)) (d : String) (f : DayAcc → DayAcc) :
    (upsertDay m d f).isEmpty = false := by
  cases m with
  | nil => rfl
  | cons kv rest =>
    obtain ⟨k, v⟩ := kv
    by_cases h : k = d <;> simp [upsertDay, h]

theorem insertDays_isEmpty {δ : Type} (key : δ → String) (g : δ → DayAcc → DayAcc) :
    ∀ (l : List δ) (m : List (String × DayAcc)),
      (insertDays key g m l).isEmpty = (m.isEmpty && l.isEmpty) := by
  intro l
  induction l with
  | nil => intro m; simp [insertDays]
  | cons d l ih =>
    intro m
    have step : insertDays key g m (d :: l) = insertDays key g (upsertDay m (key d) (g d)) l := rfl
    rw [step, ih (upsertDay m (key d) (g d)), upsertDay_isEmpty]
    simp

theorem pySlice_length_le {α : Type} (l : List α) (n : Int) (h : 0 ≤ n) :
    (pySlice l n).length ≤ n.toNat := by
  simp only [pySlice, if_pos h, List.length_take]
  exact min_le_left _ _

/-! ### Claim C2: single-flight under concurrency -/

/-- Claim C2, counterexample.  With the schedule A-lookup, B-lookup,
A-compute, A-store, B-compute, B-store (both callers miss before either
stores), the wrapped compute function executes twice for the one key, not
exactly once as the claim states. -/
theorem c2_counterexample :
    flightRun 42 [false, true, false, false, true, true] =
      ⟨some 42, 2, .finished 42, .finished 42⟩ ∧ (2 : Nat) ≠ 1 := by
  exact ⟨by decide, by decide⟩

/-- Claim C2, amended.  The cachetools wrapper is used without a lock, so
there is no single-flight guarantee: a sequential schedule executes the
compute function once and the second caller hits the cache, but an
interleaved schedule in which both callers miss before either stores
executes it twice; in both runs every caller finishes with the computed
value. -/
theorem c2_single_flight_amended :
    flightRun 42 [false, false, false, true] = ⟨some 42, 1, .finished 42, .finished 42⟩ ∧
    flightRun 42 [false, true, false, false, true, true] =
      ⟨some 42, 2, .finished 42, .finished 42⟩ := by
  exact ⟨by decide, by decide⟩

/-! ### Claim C7: retry policy of safe_request -/

/-- Claim C7, counterexample.  A malformed JSON body on the first attempt
(requests JSONDecodeError, a RequestException since requests 2.27) is
retried after a 0.3 second sleep, and so is a plain 404 HTTPError, even
though the claim says such non-transient failures propagate immediately
without any retry. -/
theorem c7_counterexample :
    (safe_request (AttemptOutcome.requestException ReqExcKind.jsonDecodeErr)
        (AttemptOutcome.ok (42 : Nat))).attemptsUsed = 2 ∧
    (safe_request (AttemptOutcome.requestException ReqExcKind.jsonDecodeErr)
        (AttemptOutcome.ok (42 : Nat))).sleepSeconds = 3/10 ∧
    (safe_request (AttemptOutcome.requestException (ReqExcKind.httpStatusErr 404))
        (AttemptOutcome.ok (42 : Nat))).attemptsUsed = 2 ∧ (2 : Nat) ≠ 1 := by
  exact ⟨rfl, rfl, rfl, by decide⟩

/-- Claim C7, amended.  safe_request retries exactly once, after a fixed
0.3 second sleep, on every requests.RequestException alike -- timeouts,
connection errors, any non-2xx HTTPError and malformed-JSON errors -- and
propagates the second failure; a first-attempt exception outside
RequestException propagates immediately with no retry and no sleep.
Missing expected fields raise KeyError in the callers (outside
safe_request) and are therefore never retried. -/
theorem c7_retry_amended (J : Type) :
    (∀ (v : J) (a2 : AttemptOutcome J), safe_request (.ok v) a2 = ⟨.ok v, 1, 0⟩) ∧
    (∀ (m : String) (a2 : AttemptOutcome J),
      safe_request (.otherException m) a2 = ⟨.error (.otherFailure m), 1, 0⟩) ∧
    (∀ (e : ReqExcKind) (v : J),
      safe_request (.requestException e) (.ok v) = ⟨.ok v, 2, 3/10⟩) ∧
    (∀ (e e2 : ReqExcKind),
      safe_request (AttemptOutcome.requestException e : AttemptOutcome J)
          (.requestException e2) =
        ⟨.error (.requestFailure e2), 2, 3/10⟩) ∧
    (∀ (e : ReqExcKind) (m : String),
      safe_request (AttemptOutcome.requestException e : AttemptOutcome J)
          (.otherException m) =
        ⟨.error (.otherFailure m), 2, 3/10⟩) := by
  exact ⟨fun _ _ => rfl, fun _ _ => rfl, fun _ _ => rfl, fun _ _ => rfl, fun _ _ => rfl⟩

/-- Claim C7, witness for the amended theorem: a first attempt that
succeeds with the payload 3 returns immediately with one attempt and no
sleep. -/
theorem c7_retry_amended_witness :
    safe_request (AttemptOutcome.ok (3 : ℚ)) (AttemptOutcome.ok 4) =
      ⟨.ok 3, 1, 0⟩ := by
  exact (c7_retry_amended ℚ).1 3 (.ok 4)

/-! ### Claim C8: distinguishing no-provider from all-failed -/

/-- Claim C8, counterexample.  With zero providers configured the code
raises exactly the same RuntimeError value as when both configured
providers fail at runtime, and the route maps both to the same 502
response, so the caller receives no distinct NoProviderConfigured error. -/
theorem c8_counterexample :
    aggregated_current cfgNone none none = aggregated_current cfgBoth none none ∧
    aggregated_current cfgNone none none = .error (.runtime allFailedMsg) ∧
    current_weather cfgNone "london" none none = current_weather cfgBoth "london" none none ∧
    current_weather cfgNone "london" none none = .providerFailure allFailedMsg := by
  exact ⟨rfl, rfl, rfl, rfl⟩

/-- Claim C8, amended.  The no-credentials condition and the
all-providers-failed condition raise one and the same RuntimeError (line
154 guards both with a single test), and the current-weather route maps
both to the same 502 provider-failure response, so the two conditions are
not distinguished for the caller. -/
theorem c8_errors_amended :
    (∀ (owResp : Option OWPayload) (waResp : Option WAPayload),
      aggregated_current cfgNone owResp waResp = .error (.runtime allFailedMsg)) ∧
    aggregated_current cfgBoth none none = .error (.runtime allFailedMsg) ∧
    (∀ (owResp : Option OWPayload) (waResp : Option WAPayload),
      current_weather cfgNone "london" owResp waResp = .providerFailure allFailedMsg) := by
  exact ⟨fun _ _ => rfl, rfl, fun _ _ => rfl⟩

/-! ### Claim C9: cache-key identity -/

theorem dropWhile_all_append (p : Char → Bool) :
    ∀ (w s : List Char), (∀ c ∈ w, p c = true) → (w ++ s).dropWhile p = s.dropWhile p := by
  intro w
  induction w with
  | nil => intro s _; rfl
  | cons c w ih =>
    intro s hw
    have hc : p c = true := hw c (List.mem_cons_self c w)
    simp only [List.cons_append, List.dropWhile_cons, hc, if_true]
    exact ih s (fun d hd => hw d (List.mem_cons_of_mem c hd))

theorem dropWhile_all_nil (p : Char → Bool) (w : List Char) (hw : ∀ c ∈ w, p c = true) :
    w.dropWhile p = [] := by
  have h := dropWhile_all_append p w [] hw
  simpa using h

theorem dropWhile_append_of_ne_nil (p : Char → Bool) :
    ∀ (s w : List Char), s.dropWhile p ≠ [] → (s ++ w).dropWhile p = s.dropWhile p ++ w := by
  intro s
  induction s with
  | nil => intro w h; exact absurd rfl h
  | cons a s ih =>
    intro w h
    by_cases hpa : p a = true
    · simp only [List.dropWhile_cons, hpa, if_true] at h ⊢
      simp only [List.cons_append, List.dropWhile_cons, hpa, if_true]
      exact ih w h
    · have hpa2 : p a = false := by
        cases hq : p a with
        | false => rfl
        | true => exact absurd hq hpa
      simp only [List.cons_append, List.dropWhile_cons, hpa2, Bool.false_eq_true, if_false]

theorem dropWhile_nil_all (p : Char → Bool) :
    ∀ (s : List Char), s.dropWhile p = [] → ∀ c ∈ s, p c = true := by
  intro s
  induction s with
  | nil => intro _ c hc; cases hc
  | cons a s ih =>
    intro h c hc
    by_cases hpa : p a = true
    · simp only [List.dropWhile_cons, hpa, if_true] at h
      rcases List.mem_cons.mp hc with hca | hcs
      · rw [hca]; exact hpa
      · exact ih h c hcs
    · have hpa2 : p a = false := by
        cases hq : p a with
        | false => rfl
        | true => exact absurd hq hpa
      simp only [List.dropWhile_cons, hpa2, Bool.false_eq_true, if_false] at h
      cases h

theorem stripChars_pad (w1 s w2 : List Char)
    (h1 : ∀ c ∈ w1, isPySpace c = true) (h2 : ∀ c ∈ w2, isPySpace c = true) :
    stripChars (w1 ++ s ++ w2) = stripChars s := by
  unfold stripChars
  rw [List.append_assoc, dropWhile_all_append isPySpace w1 (s ++ w2) h1]
  by_cases hs : s.dropWhile isPySpace = []
  · have hall : ∀ c ∈ s, isPySpace c = true := dropWhile_nil_all isPySpace s hs
    rw [dropWhile_all_append isPySpace s w2 hall, hs]
    rw [dropWhile_all_nil isPySpace w2 h2]
  · rw [dropWhile_append_of_ne_nil isPySpace s w2 hs, List.reverse_append]
    have h2r : ∀ c ∈ w2.reverse, isPySpace c = true := by
      intro c hc
      exact h2 c (List.mem_reverse.mp hc)
    rw [dropWhile_all_append isPySpace w2.reverse (s.dropWhile isPySpace).reverse h2r]

/-- Claim C9, counterexample.  The locations " London " and "london"
differ only in letter case and surrounding whitespace, yet they map to the
distinct cache keys "London" and "london": the code strips whitespace but
never normalizes case. -/
theorem c9_counterexample :
    currentCacheKey " London " = "London" ∧
    currentCacheKey "london" = "london" ∧
    currentCacheKey " London " ≠ currentCacheKey "london" := by
  exact ⟨rfl, rfl, by decide⟩

/-- Claim C9, amended.  The cache key is the whitespace-stripped but
case-preserved location (plus, for forecasts, the day count already
validated to 1..MAX_FORECAST_DAYS and passed through unchanged): requests
whose locations differ only in surrounding whitespace share one key, while
a difference in letter case yields distinct keys. -/
theorem c9_cache_key_amended :
    (∀ (w1 s w2 : List Char), (∀ c ∈ w1, isPySpace c = true) →
      (∀ c ∈ w2, isPySpace c = true) → stripChars (w1 ++ s ++ w2) = stripChars s) ∧
    currentCacheKey "London" ≠ currentCacheKey "london" ∧
    (∀ (locationParam : String) (days : Int),
      forecastCacheKey locationParam days = (currentCacheKey locationParam, days)) := by
  exact ⟨stripChars_pad, by decide, fun _ _ => rfl⟩

/-- Claim C9, witness for the amended theorem: one space of padding on each
side of "London" strips to the key of the unpadded string. -/
theorem c9_cache_key_amended_witness :
    stripChars ([' '] ++ "London".data ++ [' ']) = stripChars "London".data := by
  exact c9_cache_key_amended.1 [' '] "London".data [' ']
    (by decide) (by decide)

/-! ### Claim C5: categorical merge is first-winning mode -/

theorem pyFold_max_spec {α : Type} (f : α → ℕ) :
    ∀ (ys : List α) (b r : α),
      ys.foldl (fun acc y => if f acc < f y then y else acc) b = r →
      f b ≤ f r ∧ (∀ y ∈ ys, f y ≤ f r) ∧
      (r = b ∨ ∃ p q, ys = p ++ r :: q ∧ f b < f r ∧ ∀ y ∈ p, f y < f r) := by
  intro ys
  induction ys with
  | nil =>
    intro b r hr
    rw [List.foldl_nil] at hr
    rw [← hr]
    exact ⟨le_refl _, fun y hy => absurd hy (List.not_mem_nil y), Or.inl rfl⟩
  | cons y ys ih =>
    intro b r hr
    rw [List.foldl_cons] at hr
    by_cases hby : f b < f y
    · rw [if_pos hby] at hr
      obtain ⟨hb2, hall, hpos⟩ := ih y r hr
      refine ⟨le_of_lt (lt_of_lt_of_le hby hb2), ?_, ?_⟩
      · intro z hz
        rcases List.mem_cons.mp hz with hzy | hzs
        · rw [hzy]; exact hb2
        · exact hall z hzs
      · rcases hpos with heq | ⟨p, q, hsplit, hlt, hpre⟩
        · refine Or.inr ⟨[], ys, ?_, ?_, ?_⟩
          · rw [heq]; rfl
          · rw [heq]; exact hby
          · intro z hz; cases hz
        · refine Or.inr ⟨y :: p, q, ?_, ?_, ?_⟩
          · rw [hsplit]; rfl
          · exact lt_trans hby hlt
          · intro z hz
            rcases List.mem_cons.mp hz with hzy | hzp
            · rw [hzy]; exact hlt
            · exact hpre z hzp
    · rw [if_neg hby] at hr
      obtain ⟨hb2, hall, hpos⟩ := ih b r hr
      refine ⟨hb2, ?_, ?_⟩
      · intro z hz
        rcases List.mem_cons.mp hz with hzy | hzs
        · rw [hzy]; exact le_trans (le_of_not_lt hby) hb2
        · exact hall z hzs
      · rcases hpos with heq | ⟨p, q, hsplit, hlt, hpre⟩
        · exact Or.inl heq
        · refine Or.inr ⟨y :: p, q, ?_, ?_, ?_⟩
          · rw [hsplit]; rfl
          · exact hlt
          · intro z hz
            rcases List.mem_cons.mp hz with hzy | hzp
            · rw [hzy]; exact lt_of_le_of_lt (le_of_not_lt hby) hlt
            · exact hpre z hzp

/-- Claim C5.  The merged condition (the condMode applied at lines 164 and
250 to the condition strings collected in configured provider order) is a
mode of that list, and it sits at a position in the list all of whose
earlier entries have strictly smaller counts -- so a tie is broken in
favour of the earliest, i.e. first-configured, provider; being a function
of the ordered list, the choice is deterministic.  The second conjunct
ties this to the aggregator: with both providers configured and fully
reporting, the merged condition is condMode of the two condition strings
in configured order. -/
theorem c5_condition_mode :
    (∀ (l : List String), l ≠ [] →
      ∃ p q, l = p ++ condMode l :: q ∧
        (∀ y ∈ l, l.count y ≤ l.count (condMode l)) ∧
        (∀ y ∈ p, l.count y < l.count (condMode l))) ∧
    (∀ (t1 f1 : ℚ) (h1 : ℤ) (c1 n1 co1 : String) (la1 lo1 : Option ℚ)
       (t2 f2 : ℚ) (h2 : ℤ) (c2 n2 co2 : String) (la2 lo2 : Option ℚ),
      Except.map (fun a => a.condition)
        (aggregated_current cfgBoth
          (some ⟨⟨some t1, some f1, some h1⟩, some [some c1], n1, co1, la1, lo1⟩)
          (some ⟨some t2, some f2, some h2, some c2, n2, co2, la2, lo2⟩)) =
      .ok (condMode [c1, c2])) := by
  constructor
  · intro l hl
    match l with
    | [] => exact absurd rfl hl
    | x :: xs =>
      obtain ⟨hb2, hall, hpos⟩ :=
        pyFold_max_spec (fun s => (x :: xs).count s) xs x (condMode (x :: xs)) rfl
      rcases hpos with heq | ⟨p, q, hsplit, hlt, hpre⟩
      · refine ⟨[], xs, ?_, ?_, ?_⟩
        · rw [heq]; rfl
        · intro y hy
          rcases List.mem_cons.mp hy with hyx | hys
          · rw [hyx, heq]
          · exact hall y hys
        · intro y hy; cases hy
      · refine ⟨x :: p, q, ?_, ?_, ?_⟩
        · exact congrArg (fun t => x :: t) hsplit
        · intro y hy
          rcases List.mem_cons.mp hy with hyx | hys
          · rw [hyx]; exact hb2
          · exact hall y hys
        · intro y hy
          rcases List.mem_cons.mp hy with hyx | hyp
          · rw [hyx]; exact hlt
          · exact hpre y hyp
  · intro t1 f1 h1 c1 n1 co1 la1 lo1 t2 f2 h2 c2 n2 co2 la2 lo2
    rfl

/-- Claim C5, witness.  On the condition list Rain, Clear, Clear the merged
condition splits the list with every value counting at most as often as it
does, and every strictly earlier entry counting strictly less. -/
theorem c5_condition_mode_witness :
    ∃ p q, (["Rain", "Clear", "Clear"] : List String) =
        p ++ condMode ["Rain", "Clear", "Clear"] :: q ∧
      (∀ y ∈ (["Rain", "Clear", "Clear"] : List String),
        (["Rain", "Clear", "Clear"] : List String).count y ≤
          (["Rain", "Clear", "Clear"] : List String).count (condMode ["Rain", "Clear", "Clear"])) ∧
      (∀ y ∈ p, (["Rain", "Clear", "Clear"] : List String).count y <
        (["Rain", "Clear", "Clear"] : List String).count (condMode ["Rain", "Clear", "Clear"])) := by
  exact c5_condition_mode.1 ["Rain", "Clear", "Clear"] (by decide)

/-! ### Claim C1: numeric merge -/

/-- Claim C1, counterexample.  Four failures of the claimed rounded mean
over exactly the reporting providers.  With humidities 50 and 51 the
merged humidity is 50 (the mean truncated to an integer by int()), not
the mean rounded to 2 decimal places, which is 50.5.  With per-day minima
10 and 12 the merged min_c is 10 (the minimum), not the mean rounded to 2
decimals, which is 11.  With a WeatherAPI response that does not report
humidity, the int default 0 of line 146 still enters the mean: 50 and the
default give 25, while the one reporting provider has mean 50.  And with
an OpenWeather response that does not report feels-like, line 126
substitutes its temperature 20 into the feels mean: 20.5 with the other
feels-like 21, while the one reporting provider has mean 21. -/
theorem c1_counterexample :
    Except.map (fun a => a.humidity)
      (aggregated_current cfgBoth
        (some ⟨⟨some 20, some 20, some 50⟩, some [some "Clear"], "London", "GB", some 1, some 2⟩)
        (some ⟨some 22, some 21, some 51, some "Clear", "Paris", "FR", some 3, some 4⟩)) =
      .ok 50 ∧
    round2 (mean [((50 : ℤ) : ℚ), ((51 : ℤ) : ℚ)]) = 101/2 ∧
    (((50 : ℤ) : ℚ)) ≠ 101/2 ∧
    Except.map (fun a => a.forecast.map ForecastDay.min_c)
      (aggregated_forecast cfgBoth "berlin" 3
        (some ⟨"Berlin", "DE", some 52, some 13, [⟨"2025-09-26", some 15, some 10, some 20, some "Clear"⟩]⟩)
        (some ⟨52, 13, [⟨"2025-09-26", some 16, some 12, some 21, some "clear sky"⟩]⟩)) =
      .ok [some 10] ∧
    round2 (mean [(10 : ℚ), 12]) = 11 ∧ (10 : ℚ) ≠ 11 ∧
    Except.map (fun a => a.humidity)
      (aggregated_current cfgBoth
        (some ⟨⟨some 20, some 20, some 50⟩, some [some "Clear"], "London", "GB", some 1, some 2⟩)
        (some ⟨some 22, some 21, none, some "Clear", "Paris", "FR", some 3, some 4⟩)) =
      .ok 25 ∧
    round2 (mean [((50 : ℤ) : ℚ)]) = 50 ∧ (((25 : ℤ) : ℚ)) ≠ 50 ∧
    Except.map (fun a => a.feels_like_c)
      (aggregated_current cfgBoth
        (some ⟨⟨some 20, none, some 50⟩, some [some "Clear"], "London", "GB", some 1, some 2⟩)
        (some ⟨some 22, some 21, some 51, some "Clear", "Paris", "FR", some 3, some 4⟩)) =
      .ok (41/2) ∧
    round2 (mean [(21 : ℚ)]) = 21 ∧ (41/2 : ℚ) ≠ 21 := by
  refine ⟨?_, ?_, ?_, ?_, ?_, ?_, ?_, ?_, ?_, ?_, ?_, ?_⟩
  · show Except.ok (pyTrunc (mean [((50 : ℤ) : ℚ), ((51 : ℤ) : ℚ)])) = Except.ok 50
    norm_num [pyTrunc, mean]
  · norm_num [round2, pyRound, mean]
  · norm_num
  · show Except.ok [some (round2 (min (10 : ℚ) 12))] = Except.ok [some 10]
    norm_num [round2, pyRound]
  · norm_num [round2, pyRound, mean]
  · norm_num
  · show Except.ok (pyTrunc (mean [((50 : ℤ) : ℚ), ((0 : ℤ) : ℚ)])) = Except.ok 25
    norm_num [pyTrunc, mean]
  · norm_num [round2, pyRound, mean]
  · norm_num
  · show Except.ok (round2 (mean [(20 : ℚ), (21 : ℚ)])) = Except.ok (41/2)
    norm_num [round2, pyRound, mean]
  · norm_num [round2, pyRound, mean]
  · norm_num

/-- Claim C1, amended.  With both providers configured and fully
reporting, the merged temperature and feels-like are the arithmetic means
of the two reported values rounded to 2 decimal places, but the merged
humidity is the arithmetic mean truncated to an integer by int(); in the
forecast, only the per-day average is the rounded mean, while min_c is the
minimum and max_c the maximum of the reported values (each rounded to 2
decimal places), not means.  Moreover the mean is not taken over exactly
the reporting providers: a WeatherAPI response without humidity
contributes the int default 0 to the humidity mean, and a provider
without feels-like contributes its own temperature to the feels-like
mean. -/
theorem c1_numeric_merge_amended :
    (∀ (t1 f1 : ℚ) (h1 : ℤ) (c1 n1 co1 : String) (la1 lo1 : Option ℚ)
       (t2 f2 : ℚ) (h2 : ℤ) (c2 n2 co2 : String) (la2 lo2 : Option ℚ),
      Except.map (fun a => (a.temperature_c, a.feels_like_c, a.humidity))
        (aggregated_current cfgBoth
          (some ⟨⟨some t1, some f1, some h1⟩, some [some c1], n1, co1, la1, lo1⟩)
          (some ⟨some t2, some f2, some h2, some c2, n2, co2, la2, lo2⟩)) =
      .ok (round2 (mean [t1, t2]), round2 (mean [f1, f2]),
           pyTrunc (mean [((h1 : ℤ) : ℚ), ((h2 : ℤ) : ℚ)]))) ∧
    (∀ (a1 m1 M1 a2 m2 M2 : ℚ) (cw cod n co : String) (wla wlo : Option ℚ) (la lo : ℚ),
      Except.map (fun a => a.forecast.map (fun d => (d.min_c, d.max_c, d.avg_c)))
        (aggregated_forecast cfgBoth "berlin" 3
          (some ⟨n, co, wla, wlo, [⟨"2025-09-26", some a1, some m1, some M1, some cw⟩]⟩)
          (some ⟨la, lo, [⟨"2025-09-26", some a2, some m2, some M2, some cod⟩]⟩)) =
      .ok [(some (round2 (min m1 m2)), some (round2 (max M1 M2)),
            some (round2 (mean [a1, a2])))]) ∧
    (∀ (t1 f1 : ℚ) (h1 : ℤ) (c1 n1 co1 : String) (la1 lo1 : Option ℚ)
       (t2 f2 : ℚ) (c2 n2 co2 : String) (la2 lo2 : Option ℚ),
      Except.map (fun a => a.humidity)
        (aggregated_current cfgBoth
          (some ⟨⟨some t1, some f1, some h1⟩, some [some c1], n1, co1, la1, lo1⟩)
          (some ⟨some t2, some f2, none, some c2, n2, co2, la2, lo2⟩)) =
      .ok (pyTrunc (mean [((h1 : ℤ) : ℚ), ((0 : ℤ) : ℚ)]))) ∧
    (∀ (t1 : ℚ) (h1 : ℤ) (c1 n1 co1 : String) (la1 lo1 : Option ℚ)
       (t2 f2 : ℚ) (h2 : ℤ) (c2 n2 co2 : String) (la2 lo2 : Option ℚ),
      Except.map (fun a => a.feels_like_c)
        (aggregated_current cfgBoth
          (some ⟨⟨some t1, none, some h1⟩, some [some c1], n1, co1, la1, lo1⟩)
          (some ⟨some t2, some f2, some h2, some c2, n2, co2, la2, lo2⟩)) =
      .ok (round2 (mean [t1, f2]))) := by
  refine ⟨?_, ?_, ?_, ?_⟩
  · intro t1 f1 h1 c1 n1 co1 la1 lo1 t2 f2 h2 c2 n2 co2 la2 lo2
    rfl
  · intro a1 m1 M1 a2 m2 M2 cw cod n co wla wlo la lo
    rfl
  · intro t1 f1 h1 c1 n1 co1 la1 lo1 t2 f2 c2 n2 co2 la2 lo2
    rfl
  · intro t1 h1 c1 n1 co1 la1 lo1 t2 f2 h2 c2 n2 co2 la2 lo2
    rfl

/-! ### Claim C6: merged location -/

/-- Claim C6, counterexample.  Both providers succeed with different
locations; the merged location is the Paris record of WeatherAPI, the
second configured provider (each branch rebinds the location variable, so
the last successful provider wins), not the London record of OpenWeather,
the first configured provider. -/
theorem c6_counterexample :
    aggregated_current cfgBoth
      (some ⟨⟨some 20, some 20, some 50⟩, some [some "Clear"], "London", "GB", some 1, some 2⟩)
      (some ⟨some 22, some 21, some 60, some "Clear", "Paris", "FR", some 3, some 4⟩) =
      .ok ⟨⟨"Paris, FR", some 3, some 4⟩, 21, 41/2, 55, "Clear"⟩ ∧
    owLocation ⟨⟨some 20, some 20, some 50⟩, some [some "Clear"], "London", "GB", some 1, some 2⟩ =
      ⟨"London, GB", some 1, some 2⟩ ∧
    (⟨"Paris, FR", some 3, some 4⟩ : Location) ≠ ⟨"London, GB", some 1, some 2⟩ := by
  refine ⟨?_, by decide, by decide⟩
  simp only [aggregated_current, currentCollect, owCurrentExtract, waCurrentExtract, owCond,
    owLocation, waLocation, dictGet, CurrentAcc.isEmpty, condMode, pyMaxBy, cfgBoth]
  norm_num [mean, round2, pyRound, pyTrunc, List.count]
  decide

/-- Claim C6, amended.  The merged location is the location record of the
last successful provider in configured order, with no non-emptiness
filter: with both providers fully reporting, the WeatherAPI record wins
for current weather; with only OpenWeather succeeding, its record is used;
in the forecast the OpenWeather branch runs last and rebinds location
inside its day loop, so when it contributes at least one day the location
is its city, lat, lon record.  Coordinates are never averaged: the result
is always exactly one provider record. -/
theorem c6_location_amended :
    (∀ (t1 f1 : ℚ) (h1 : ℤ) (c1 n1 co1 : String) (la1 lo1 : Option ℚ)
       (t2 f2 : ℚ) (h2 : ℤ) (c2 n2 co2 : String) (la2 lo2 : Option ℚ),
      Except.map (fun a => a.location)
        (aggregated_current cfgBoth
          (some ⟨⟨some t1, some f1, some h1⟩, some [some c1], n1, co1, la1, lo1⟩)
          (some ⟨some t2, some f2, some h2, some c2, n2, co2, la2, lo2⟩)) =
      .ok ⟨n2 ++ ", " ++ co2, la2, lo2⟩) ∧
    (∀ (t1 f1 : ℚ) (h1 : ℤ) (c1 n1 co1 : String) (la1 lo1 : Option ℚ),
      Except.map (fun a => a.location)
        (aggregated_current cfgBoth
          (some ⟨⟨some t1, some f1, some h1⟩, some [some c1], n1, co1, la1, lo1⟩) none) =
      .ok ⟨n1 ++ ", " ++ co1, la1, lo1⟩) ∧
    (∀ (city n co cw cod : String) (wla wlo a1 m1 M1 a2 m2 M2 : Option ℚ) (la lo : ℚ),
      Except.map (fun a => a.location)
        (aggregated_forecast cfgBoth city 3
          (some ⟨n, co, wla, wlo, [⟨"2026-01-01", a1, m1, M1, some cw⟩]⟩)
          (some ⟨la, lo, [⟨"2026-01-02", a2, m2, M2, some cod⟩]⟩)) =
      .ok ⟨city, some la, some lo⟩) := by
  refine ⟨?_, ?_, ?_⟩
  · intro t1 f1 h1 c1 n1 co1 la1 lo1 t2 f2 h2 c2 n2 co2 la2 lo2
    rfl
  · intro t1 f1 h1 c1 n1 co1 la1 lo1
    rfl
  · intro city n co cw cod wla wlo a1 m1 M1 a2 m2 M2 la lo
    rfl

/-! ### Claim C10: non-atomic per-provider extraction -/

/-- Claim C10, counterexample.  At the very input the claim describes --
only OpenWeather configured, its response carrying temp but no humidity,
so temps and feels were recorded before the failure and the
non-empty-results guard passes -- the crash is a ZeroDivisionError: the
setdefault at line 127 created the humidities key with an empty list
before the raising lookup, so the line-162 lookup succeeds and mean of the
empty list divides by zero.  It is not the KeyError on the humidities
lookup the claim asserts, nor the NameError on location. -/
theorem c10_counterexample :
    (currentCollect cfgOWOnly
      (some ⟨⟨some 20, none, none⟩, some [some "Clear"], "London", "GB", some 51, some 0⟩)
      none).1.isEmpty = false ∧
    aggregated_current cfgOWOnly
      (some ⟨⟨some 20, none, none⟩, some [some "Clear"], "London", "GB", some 51, some 0⟩)
      none = .error .zeroDivisionError ∧
    PyErr.zeroDivisionError ≠ .keyError "humidities" ∧
    PyErr.zeroDivisionError ≠ .nameError "location" := by
  exact ⟨rfl, rfl, by decide, by decide⟩

/-- Claim C10, amended.  Extraction is not atomic, but the crash modes
differ from the ones the claim names.  Each setdefault creates its key
before the raising append argument evaluates, so a mid-extraction failure
keeps the fields appended before it plus an empty list under the key whose
append raised.  Conjuncts: with only OpenWeather configured and humidity
missing after temp was recorded, the guard passes and aggregation crashes
with a ZeroDivisionError from the mean of the empty humidities list; with
a present-but-empty weather array the IndexError of line 128 fires before
the conds setdefault, so the guard passes and aggregation crashes with a
KeyError on conds; and with a second, fully reporting provider,
aggregation proceeds on the partially extracted data -- the partial
provider temperature 20 enters the temperature mean (21 with 22 from the
full provider) even though that provider failed partway. -/
theorem c10_partial_extraction_amended :
    (currentCollect cfgOWOnly
      (some ⟨⟨some 20, none, none⟩, some [some "Clear"], "London", "GB", some 51, some 0⟩)
      none).1.isEmpty = false ∧
    aggregated_current cfgOWOnly
      (some ⟨⟨some 20, none, none⟩, some [some "Clear"], "London", "GB", some 51, some 0⟩)
      none = .error .zeroDivisionError ∧
    (currentCollect cfgOWOnly
      (some ⟨⟨some 20, some 20, some 50⟩, some [], "London", "GB", some 51, some 0⟩)
      none).1.isEmpty = false ∧
    aggregated_current cfgOWOnly
      (some ⟨⟨some 20, some 20, some 50⟩, some [], "London", "GB", some 51, some 0⟩)
      none = .error (.keyError "conds") ∧
    aggregated_current cfgBoth
      (some ⟨⟨some 20, none, none⟩, some [some "Clear"], "London", "GB", some 51, some 0⟩)
      (some ⟨some 22, some 21, some 50, some "Rain", "Paris", "FR", some 48, some 2⟩) =
      .ok ⟨⟨"Paris, FR", some 48, some 2⟩, 21, 41/2, 50, "Rain"⟩ := by
  refine ⟨rfl, rfl, rfl, rfl, ?_⟩
  simp only [aggregated_current, currentCollect, owCurrentExtract, waCurrentExtract, owCond,
    owLocation, waLocation, dictGet, CurrentAcc.isEmpty, condMode, pyMaxBy, cfgBoth]
  norm_num [mean, round2, pyRound, pyTrunc, List.count]
  decide

/-! ### Claim C3: error iff zero successes, and nothing cached on error -/

/-- Claim C4, counterexample.  A request for days = 50 with
MAX_FORECAST_DAYS = 7 is rejected by the route with a 400 invalid-query
response; it does not yield a successful 7-day result, even with both
providers ready to answer. -/
theorem c4_counterexample :
    forecast_weather cfgBoth "london" 50
      (some ⟨"London", "GB", some 51, some 0,
        [⟨"2025-09-26", some 15, some 10, some 20, some "Rain"⟩]⟩)
      (some ⟨51, 0, [⟨"2025-09-26", some 16, some 12, some 21, some "light rain"⟩]⟩) =
    .badRequest "days must be between 1 and 7" := by
  rfl

/-- Claim C4, amended.  The route rejects any day count outside
1..MAX_FORECAST_DAYS with a 400 invalid-query error (days = 50 is rejected,
not clamped; days = 0 or negative is rejected as the claim says); a day
count inside the range is passed through to the aggregator unchanged; and
the aggregator additionally clamps its day count from above, so a
successful result never covers more than min(days, MAX_FORECAST_DAYS)
days. -/
theorem c4_days_clamp_amended :
    (∀ (cfg : Config) (loc : String) (days : Int)
       (waResp : Option WAForecastPayload) (owResp : Option OWForecastResp),
      pyStrip loc ≠ "" → (days ≤ 0 ∨ MAX_FORECAST_DAYS < days) →
      forecast_weather cfg loc days waResp owResp =
        .badRequest "days must be between 1 and 7") ∧
    (∀ (cfg : Config) (loc : String) (days : Int)
       (waResp : Option WAForecastPayload) (owResp : Option OWForecastResp),
      pyStrip loc ≠ "" → 1 ≤ days → days ≤ MAX_FORECAST_DAYS →
      forecast_weather cfg loc days waResp owResp =
        (match aggregated_forecast cfg (pyStrip loc) days waResp owResp with
          | .ok d => .success d
          | .error (.runtime m) => .providerFailure m
          | .error e => .internalError e)) ∧
    (∀ (cfg : Config) (city : String) (days : Int)
       (waResp : Option WAForecastPayload) (owResp : Option OWForecastResp)
       (a : ForecastAnswer),
      0 ≤ days → aggregated_forecast cfg city days waResp owResp = .ok a →
      a.forecast.length ≤ (min days MAX_FORECAST_DAYS).toNat) := by
  refine ⟨?_, ?_, ?_⟩
  · intro cfg loc days waResp owResp hloc hdays
    simp only [forecast_weather]
    rw [if_neg hloc, if_pos hdays]
  · intro cfg loc days waResp owResp hloc h1 h7
    have hdays : ¬(days ≤ 0 ∨ MAX_FORECAST_DAYS < days) := by
      have h7e : MAX_FORECAST_DAYS = 7 := rfl
      rw [h7e] at h7 ⊢
      omega
    simp only [forecast_weather]
    rw [if_neg hloc, if_neg hdays]
  · intro cfg city days waResp owResp a hdays heq
    have h0 : (0 : Int) ≤ min days MAX_FORECAST_DAYS := le_min hdays (by decide)
    simp only [aggregated_forecast] at heq
    split at heq
    · exact Except.noConfusion heq
    · split at heq
      · exact Except.noConfusion heq
      · have h2 := Except.ok.inj heq
        rw [← h2]
        simpa using pySlice_length_le _ _ h0

/-- Claim C4, witness for the amended theorem: the concrete out-of-range
request days = 50 for the location berlin is rejected with the 400
invalid-query response. -/
theorem c4_days_clamp_amended_witness :
    forecast_weather cfgBoth "berlin" 50 none none =
      .badRequest "days must be between 1 and 7" := by
  exact c4_days_clamp_amended.1 cfgBoth "berlin" 50 none none
    (by decide) (by decide)

end WeatherAPI
